import Mathlib

/-!
Shallow embedding of the slang expression binder (Binder.cpp) and proofs of
the specification's claims about it.

The embedding follows the source file function by function:
* `TypeSymbol` models the canonicalized type descriptors (integral / real /
  shortreal / error) the binder consumes and produces.
* `ExpressionSyntax` models the syntax-tree kinds the binder dispatches on.
* `Expression` models the bound-expression tree.
* The binder functions return `Option (Expression × List Diagnostic)`:
  `none` models a crash (THROW_UNREACHABLE, a failed ASSERT, or calling
  `.value()` on an empty `optional`), and the diagnostic list collects the
  errors emitted through `compilation.addError` during that call.
-/

namespace Slang

/-- Syntax kinds, restricted to the kinds the binder's dispatch handles. -/
inductive SyntaxKind where
  | Unknown
  | AddExpression | SubtractExpression | MultiplyExpression | DivideExpression
  | ModExpression
  | BinaryAndExpression | BinaryOrExpression | BinaryXorExpression
  | BinaryXnorExpression
  | EqualityExpression | InequalityExpression | CaseEqualityExpression
  | CaseInequalityExpression
  | GreaterThanEqualExpression | GreaterThanExpression
  | LessThanEqualExpression | LessThanExpression
  | WildcardEqualityExpression | WildcardInequalityExpression
  | LogicalAndExpression | LogicalOrExpression
  | LogicalImplicationExpression | LogicalEquivalenceExpression
  | LogicalShiftLeftExpression | LogicalShiftRightExpression
  | ArithmeticShiftLeftExpression | ArithmeticShiftRightExpression
  | PowerExpression
  | AssignmentExpression | AddAssignmentExpression
  | SubtractAssignmentExpression | MultiplyAssignmentExpression
  | DivideAssignmentExpression | ModAssignmentExpression
  | AndAssignmentExpression | OrAssignmentExpression | XorAssignmentExpression
  | LogicalLeftShiftAssignmentExpression
  | LogicalRightShiftAssignmentExpression
  | ArithmeticLeftShiftAssignmentExpression
  | ArithmeticRightShiftAssignmentExpression
  | UnaryPlusExpression | UnaryMinusExpression | UnaryBitwiseNotExpression
  | UnaryBitwiseAndExpression | UnaryBitwiseOrExpression
  | UnaryBitwiseXorExpression | UnaryBitwiseNandExpression
  | UnaryBitwiseNorExpression | UnaryBitwiseXnorExpression
  | UnaryLogicalNotExpression
  | BitSelect | SimpleRangeSelect | AscendingRangeSelect
  | DescendingRangeSelect
  deriving DecidableEq, Repr

/-- The `SymbolKind` values the binder's type checks compare against. -/
inductive SymbolTypeKind where
  | IntegralType | RealType | ErrorType
  deriving DecidableEq, Repr

/-- Canonicalized type descriptors (`TypeSymbol`).  `integral` carries width,
signedness, four-state flag and the per-dimension lower bounds consulted by
`bindSelectExpression`; `real` is the 64-bit real, `shortreal` the 32-bit
one, and `error` the sentinel type of invalid expressions. -/
inductive TypeSymbol where
  | integral (width : Int) (isSigned isFourState : Bool) (lowerBounds : List Int)
  | real
  | shortreal
  | error
  deriving DecidableEq, Repr

namespace TypeSymbol

/-- `TypeSymbol::width()`: 64 for `real`, 32 for `shortreal`.  The error
type's width comes from the external type algebra and is not exercised by
any theorem below; it is modeled as 0. -/
def width : TypeSymbol → Int
  | integral w _ _ _ => w
  | real => 64
  | shortreal => 32
  | error => 0

/-- `TypeSymbol::isSigned()`.  Real types and the error sentinel only feed
branches of the binder where signedness is discarded; reals are modeled as
signed, the error type as unsigned. -/
def isSigned : TypeSymbol → Bool
  | integral _ s _ _ => s
  | real => true
  | shortreal => true
  | error => false

/-- `TypeSymbol::isFourState()`. -/
def isFourState : TypeSymbol → Bool
  | integral _ _ f _ => f
  | _ => false

/-- `TypeSymbol::isReal()`. -/
def isReal : TypeSymbol → Bool
  | real => true
  | shortreal => true
  | _ => false

/-- The `kind` discriminant compared against `SymbolKind::IntegralType` /
`SymbolKind::RealType` in the applicability checks. -/
def kind : TypeSymbol → SymbolTypeKind
  | integral _ _ _ _ => .IntegralType
  | real => .RealType
  | shortreal => .RealType
  | error => .ErrorType

/-- The first packed dimension's lower bound, as read by
`expr.type->as<IntegralTypeSymbol>().lowerBounds[0]`.  `none` models the
crash on a non-integral type or an empty bound list. -/
def lowerBound0 : TypeSymbol → Option Int
  | integral _ _ _ (b :: _) => some b
  | _ => none

end TypeSymbol

/-- `compilation.getType(width, isSigned, isFourState)`: the interned
integral descriptor.  Interned integrals carry the canonical declared range
`[width-1:0]`, so the lower bound is 0. -/
def getType (width : Int) (isSigned isFourState : Bool) : TypeSymbol :=
  .integral width isSigned isFourState [0]

/-- `compilation.getType(width, isSigned)`: the two-argument overload.  Its
defaulted four-state flag is declared outside the binder source; it is
modeled as `false` and no theorem below depends on it. -/
def getType2 (width : Int) (isSigned : Bool) : TypeSymbol :=
  getType width isSigned false

/-- Modelled from the spec: `compilation.getIntType()` — `int` is the
32-bit signed two-state integral type (spec §8 S2). -/
def getIntType : TypeSymbol := getType 32 true false

/-- `compilation.getRealType()`. -/
def getRealType : TypeSymbol := .real

/-- `compilation.getShortRealType()`. -/
def getShortRealType : TypeSymbol := .shortreal

/-- `compilation.getLogicType()`: the single-bit four-state result type of
reductions and comparisons. -/
def getLogicType : TypeSymbol := getType 1 false true

/-- `compilation.getErrorType()`. -/
def getErrorType : TypeSymbol := .error

/-- The diagnostics the binder emits, with the format arguments the
theorems inspect (identifier text, expected/actual argument counts). -/
inductive Diagnostic where
  | UndeclaredIdentifier (name : String)
  | BadUnaryExpression
  | BadBinaryExpression
  | BadAssignment
  | NoImplicitConversion
  | TooManyArguments (expected actual : Nat)
  | ReturnNotInSubroutine
  deriving DecidableEq, Repr

/-- The symbol kinds the binder consumes from the scope graph.  `var`
covers `SymbolKind::Variable` and `SymbolKind::FormalArgument`, which the
binder treats identically. -/
inductive Symbol where
  | var (type : TypeSymbol)
  | param (type : TypeSymbol)
  | subroutine (formals : List TypeSymbol) (returnType : TypeSymbol)
  deriving DecidableEq, Repr

/-- The scope interface consumed by the binder: `lookup` returning a found
symbol or nothing (`LookupResult` statuses other than `Found` all take the
same branch in the binder). -/
structure Scope where
  lookup : String → Option Symbol

/-- Modelled from the spec: `TypeSymbol::isAssignmentCompatible` and
`TypeSymbol::isCastCompatible` are provided by the external type algebra
(spec §4.A) and only consumed by the binder; they are passed in as
parameters.  `isAssignmentCompatible dst src` answers whether `src` may be
implicitly assigned into `dst`. -/
structure TypeCompat where
  isAssignmentCompatible : TypeSymbol → TypeSymbol → Bool
  isCastCompatible : TypeSymbol → TypeSymbol → Bool

/-- The expression syntax kinds the binder handles, with the payload fields
it reads.  `integerVector` models `IntegerVectorExpressionSyntax` (a
possibly-missing literal token carrying an `SVInt` of the given width,
signedness and unknown-bit flag).  `bitSelectExpr` and `rangeSelectExpr`
model `ElementSelectExpressionSyntax` whose selector is a `BitSelectSyntax`
resp. a `RangeSelectSyntax` of the given kind. -/
inductive ExpressionSyntax where
  | integerLiteral (value : Int)
  | realLiteral
  | unbasedUnsizedLiteral (isUnknown : Bool)
  | integerVector (missing : Bool) (width : Int) (isSigned hasUnknown : Bool)
      (value : Int)
  | identifierName (id : String)
  | parenthesized (expression : ExpressionSyntax)
  | unaryExpr (kind : SyntaxKind) (operand : ExpressionSyntax)
  | binaryExpr (kind : SyntaxKind) (left right : ExpressionSyntax)
  | conditionalExpr (predicate left right : ExpressionSyntax)
  | concatenationExpr (expressions : List ExpressionSyntax)
  | multipleConcatenationExpr (expression concatenation : ExpressionSyntax)
  | bitSelectExpr (left index : ExpressionSyntax)
  | rangeSelectExpr (kind : SyntaxKind)
      (left selectorLeft selectorRight : ExpressionSyntax)
  | invocationExpr (callee : String) (arguments : List ExpressionSyntax)
  deriving Repr

/-- Bound expressions.  Each constructor mirrors one bound-node class of
the source (`IntegerLiteral`, `RealLiteral`, `UnbasedUnsizedIntegerLiteral`,
`VariableRefExpression`, `ParameterRefExpression`, `UnaryExpression`,
`BinaryExpression`, `TernaryExpression`, `NaryExpression`,
`SelectExpression`, `CallExpression`, `InvalidExpression`); the first field
is always the node's type.  `invalid` carries the optionally wrapped
original expression (`nullptr` modeled as `none`). -/
inductive Expression where
  | integerLiteral (type : TypeSymbol) (value : Int)
  | realLiteral (type : TypeSymbol)
  | unbasedUnsizedLiteral (type : TypeSymbol) (isUnknown : Bool)
  | variableRef (type : TypeSymbol)
  | parameterRef (type : TypeSymbol)
  | unaryOp (type : TypeSymbol) (operand : Expression)
  | binaryOp (type : TypeSymbol) (left right : Expression)
  | ternaryOp (type : TypeSymbol) (pred left right : Expression)
  | naryOp (type : TypeSymbol) (operands : List Expression)
  | selectOp (type : TypeSymbol) (kind : SyntaxKind)
      (base left right : Expression)
  | callOp (type : TypeSymbol) (args : List Expression)
  | invalid (type : TypeSymbol) (inner : Option Expression)
  deriving Repr

namespace Expression

/-- The node's resolved type (`expr.type`). -/
def type : Expression → TypeSymbol
  | integerLiteral t _ => t
  | realLiteral t => t
  | unbasedUnsizedLiteral t _ => t
  | variableRef t => t
  | parameterRef t => t
  | unaryOp t _ => t
  | binaryOp t _ _ => t
  | ternaryOp t _ _ _ => t
  | naryOp t _ => t
  | selectOp t _ _ _ _ => t
  | callOp t _ => t
  | invalid t _ => t

/-- `expr.bad() ⇔ expr.type->isError()`. -/
def bad (e : Expression) : Bool := e.type == .error

/-- Assignment to the mutable `type` field (`expr.type = &t`). -/
def setType : Expression → TypeSymbol → Expression
  | integerLiteral _ v, t => integerLiteral t v
  | realLiteral _, t => realLiteral t
  | unbasedUnsizedLiteral _ u, t => unbasedUnsizedLiteral t u
  | variableRef _, t => variableRef t
  | parameterRef _, t => parameterRef t
  | unaryOp _ a, t => unaryOp t a
  | binaryOp _ a b, t => binaryOp t a b
  | ternaryOp _ p a b, t => ternaryOp t p a b
  | naryOp _ xs, t => naryOp t xs
  | selectOp _ k b l r, t => selectOp t k b l r
  | callOp _ xs, t => callOp t xs
  | invalid _ i, t => invalid t i

/-- Modelled from the spec: `Expression::propagateType` is defined per
bound-node kind outside the binder source (spec §4.C: it re-canonicalizes
the node's type to the context type and descends).  It is modeled as
setting the node's type; every call site inside the binder passes the
node's own current type, so the descent into children does not affect any
property proved below. -/
def propagateType (e : Expression) (newType : TypeSymbol) : Expression :=
  e.setType newType

/-- Modelled from the spec: the `eval()` façade onto the external
constant-evaluation engine (spec §6), composed with
`ConstantValue::integer()`.  An integer literal evaluates to its value —
the one case the theorems exercise; every other shape is modeled as
failure. -/
def eval : Expression → Option Int
  | integerLiteral _ v => some v
  | _ => none

end Expression

/-- `SVInt::as<uint16_t>()`: the value if it fits in an unsigned 16-bit
integer, otherwise an empty optional. -/
def asUInt16 (v : Int) : Option Int :=
  if 0 ≤ v ∧ v < 65536 then some v else none

/-- `SVInt::as<int64_t>()`: the value if it fits in a signed 64-bit
integer, otherwise an empty optional. -/
def asInt64 (v : Int) : Option Int :=
  if -(2 ^ 63) ≤ v ∧ v < 2 ^ 63 then some v else none

/-- The C++ `(int)` cast: two's-complement truncation to 32 bits. -/
def toInt32 (v : Int) : Int := (v + 2 ^ 31) % 2 ^ 32 - 2 ^ 31

/-- `Binder::badExpr`: wrap in an `InvalidExpression` of the error type. -/
def badExpr (expr : Option Expression) : Expression :=
  .invalid getErrorType expr

/-- `Binder::binaryOperatorResultType`. -/
def binaryOperatorResultType (lhsType rhsType : TypeSymbol)
    (forceFourState : Bool) : TypeSymbol :=
  let width := max lhsType.width rhsType.width
  let isSigned := lhsType.isSigned && rhsType.isSigned
  let fourState := forceFourState || lhsType.isFourState || rhsType.isFourState
  if lhsType.isReal || rhsType.isReal then
    if width ≥ 64 then getRealType else getShortRealType
  else
    getType width isSigned fourState

/-- `Binder::propagateAssignmentLike`: widen `rhs` in place when the
context type is wider, returning whether anything was done together with
the updated node. -/
def propagateAssignmentLike (rhs : Expression) (lhsType : TypeSymbol) :
    Expression × Bool :=
  if lhsType.width > rhs.type.width then
    let rhs :=
      if !lhsType.isReal && !rhs.type.isReal then
        rhs.setType (getType lhsType.width rhs.type.isSigned
          rhs.type.isFourState)
      else if lhsType.width > 32 then rhs.setType getRealType
      else rhs.setType getShortRealType
    (rhs.propagateType rhs.type, true)
  else
    (rhs, false)

/-- The unary overload of `Binder::checkOperatorApplicability`: short
circuits on a bad operand, admits integral-or-real operands for `+`, `-`
and `!`, integral-only otherwise, and emits `BadUnaryExpression` on
failure. -/
def checkOperatorApplicabilityUnary (op : SyntaxKind) (operand : Expression) :
    Bool × List Diagnostic :=
  if operand.bad then (false, [])
  else
    let t := operand.type
    let good : Bool :=
      match op with
      | .UnaryPlusExpression | .UnaryMinusExpression
      | .UnaryLogicalNotExpression =>
          t.kind == .IntegralType || t.kind == .RealType
      | _ => t.kind == .IntegralType
    if good then (true, []) else (false, [.BadUnaryExpression])

/-- The binary overload of `Binder::checkOperatorApplicability`: short
circuits when either operand is bad, admits integral-or-real operands for
the arithmetic/logical/comparison group listed in the source, integral-only
otherwise, and emits `BadBinaryExpression` on failure. -/
def checkOperatorApplicabilityBinary (op : SyntaxKind) (lhs rhs : Expression) :
    Bool × List Diagnostic :=
  if lhs.bad || rhs.bad then (false, [])
  else
    let lt := lhs.type
    let rt := rhs.type
    let good : Bool :=
      match op with
      | .AddExpression | .SubtractExpression | .MultiplyExpression
      | .DivideExpression | .PowerExpression
      | .LogicalAndExpression | .LogicalOrExpression
      | .LogicalImplicationExpression | .LogicalEquivalenceExpression
      | .LessThanEqualExpression | .LessThanExpression
      | .GreaterThanEqualExpression | .GreaterThanExpression
      | .EqualityExpression | .InequalityExpression
      | .WildcardEqualityExpression | .WildcardInequalityExpression
      | .CaseEqualityExpression | .CaseInequalityExpression =>
          (lt.kind == .IntegralType || lt.kind == .RealType) &&
          (rt.kind == .IntegralType || rt.kind == .RealType)
      | _ => lt.kind == .IntegralType && rt.kind == .IntegralType
    if good then (true, []) else (false, [.BadBinaryExpression])

/-- `Binder::bindSimpleName`: look the identifier up in the scope; a
lookup status other than `Found` emits `UndeclaredIdentifier` and yields an
invalid node; variables and formal arguments become variable references,
parameters become parameter references, and any other symbol kind hits
THROW_UNREACHABLE. -/
def bindSimpleName (sc : Scope) (id : String) :
    Option (Expression × List Diagnostic) :=
  match sc.lookup id with
  | none => some (badExpr none, [.UndeclaredIdentifier id])
  | some (.var t) => some (.variableRef t, [])
  | some (.param t) => some (.parameterRef t, [])
  | some (.subroutine _ _) => none

/-- The `propagateType` half of `Binder::bindAndPropagate`, applied to the
result of `bindExpression`: `expr.propagateType(*expr.type)`. -/
def andPropagate (r : Option (Expression × List Diagnostic)) :
    Option (Expression × List Diagnostic) :=
  r.map fun p => (p.1.propagateType p.1.type, p.2)

/-- Body of `Binder::bindUnaryArithmeticOperator` after the operand has
been bound: result type equals the operand type. -/
def bindUnaryArithmeticOperatorCore (op : SyntaxKind) (operand : Expression) :
    Expression × List Diagnostic :=
  let (ok, d) := checkOperatorApplicabilityUnary op operand
  if !ok then (badExpr (some (.unaryOp getErrorType operand)), d)
  else (.unaryOp operand.type operand, d)

/-- Body of `Binder::bindUnaryReductionOperator` after the operand has been
bound: result type is always the single-bit logic type. -/
def bindUnaryReductionOperatorCore (op : SyntaxKind) (operand : Expression) :
    Expression × List Diagnostic :=
  let (ok, d) := checkOperatorApplicabilityUnary op operand
  if !ok then (badExpr (some (.unaryOp getErrorType operand)), d)
  else (.unaryOp getLogicType operand, d)

/-- Body of `Binder::bindArithmeticOperator` after both operands have been
bound: the result type is forced four-state exactly when the operator is a
division. -/
def bindArithmeticOperatorCore (op : SyntaxKind) (lhs rhs : Expression) :
    Expression × List Diagnostic :=
  let (ok, d) := checkOperatorApplicabilityBinary op lhs rhs
  if !ok then (badExpr (some (.binaryOp getErrorType lhs rhs)), d)
  else
    let type := binaryOperatorResultType lhs.type rhs.type
      (op == .DivideExpression)
    (.binaryOp type lhs rhs, d)

/-- Body of `Binder::bindComparisonOperator` after both operands have been
bound: result type is always the single-bit logic type. -/
def bindComparisonOperatorCore (op : SyntaxKind) (lhs rhs : Expression) :
    Expression × List Diagnostic :=
  let (ok, d) := checkOperatorApplicabilityBinary op lhs rhs
  if !ok then (badExpr (some (.binaryOp getErrorType lhs rhs)), d)
  else (.binaryOp getLogicType lhs rhs, d)

/-- Body of `Binder::bindRelationalOperator` after both operands have been
bound: the operands are widened to each other reciprocally and the result
type is the single-bit logic type. -/
def bindRelationalOperatorCore (op : SyntaxKind) (lhs rhs : Expression) :
    Expression × List Diagnostic :=
  let (ok, d) := checkOperatorApplicabilityBinary op lhs rhs
  if !ok then (badExpr (some (.binaryOp getErrorType lhs rhs)), d)
  else
    let (rhs2, did) := propagateAssignmentLike rhs lhs.type
    let lhs2 := if did then lhs else (propagateAssignmentLike lhs rhs.type).1
    (.binaryOp getLogicType lhs2 rhs2, d)

/-- Body of `Binder::bindShiftOrPowerOperator` after both operands have
been bound: the result type is forced four-state exactly when the operator
is a power. -/
def bindShiftOrPowerOperatorCore (op : SyntaxKind) (lhs rhs : Expression) :
    Expression × List Diagnostic :=
  let (ok, d) := checkOperatorApplicabilityBinary op lhs rhs
  if !ok then (badExpr (some (.binaryOp getErrorType lhs rhs)), d)
  else
    let type := binaryOperatorResultType lhs.type rhs.type
      (op == .PowerExpression)
    (.binaryOp type lhs rhs, d)

/-- The switch in `Binder::bindAssignmentOperator` mapping each compound
assignment to its underlying binary operator (plain assignment maps to
`Unknown`); a non-assignment kind hits THROW_UNREACHABLE. -/
def binopKindForAssignment : SyntaxKind → Option SyntaxKind
  | .AssignmentExpression => some .Unknown
  | .AddAssignmentExpression => some .AddExpression
  | .SubtractAssignmentExpression => some .SubtractExpression
  | .MultiplyAssignmentExpression => some .MultiplyExpression
  | .DivideAssignmentExpression => some .DivideExpression
  | .ModAssignmentExpression => some .ModExpression
  | .AndAssignmentExpression => some .BinaryAndExpression
  | .OrAssignmentExpression => some .BinaryOrExpression
  | .XorAssignmentExpression => some .BinaryXorExpression
  | .LogicalLeftShiftAssignmentExpression => some .LogicalShiftLeftExpression
  | .LogicalRightShiftAssignmentExpression => some .LogicalShiftRightExpression
  | .ArithmeticLeftShiftAssignmentExpression =>
      some .ArithmeticShiftLeftExpression
  | .ArithmeticRightShiftAssignmentExpression =>
      some .ArithmeticShiftRightExpression
  | _ => none

/-- Body of `Binder::bindAssignmentOperator` after both operands have been
bound: applicability is that of the underlying binary operator, the RHS is
widened to the LHS type, and the result type is the LHS type. -/
def bindAssignmentOperatorCore (op : SyntaxKind) (lhs rhs : Expression) :
    Option (Expression × List Diagnostic) :=
  match binopKindForAssignment op with
  | none => none
  | some binopKind =>
    let (ok, d) := checkOperatorApplicabilityBinary binopKind lhs rhs
    if !ok then some (badExpr (some (.binaryOp getErrorType lhs rhs)), d)
    else
      let rhs2 := (propagateAssignmentLike rhs lhs.type).1
      some (.binaryOp lhs.type lhs rhs2, d)

/-- Body of `Binder::bindConditionalExpression` after the predicate and
both arms have been bound: the result type forces four-state for the
ambiguous-condition case.  No badness check is performed on any child. -/
def bindConditionalExpressionCore (pred left right : Expression) :
    Expression × List Diagnostic :=
  let type := binaryOperatorResultType left.type right.type true
  (.ternaryOp type pred left right, [])

/-- Body of `Binder::bindMultipleConcatenationExpression` after both sides
have been bound: the replication count is read through
`left.eval().integer().as<uint16_t>().value()` — a count outside the
unsigned 16-bit range (or a non-constant count) crashes, modeled as
`none`. -/
def bindMultipleConcatenationExpressionCore (left right : Expression) :
    Option (Expression × List Diagnostic) :=
  match left.eval.bind asUInt16 with
  | none => none
  | some replicationTimes =>
      some (.binaryOp (getType2 (right.type.width * replicationTimes) false)
        left right, [])

/-- Body of `Binder::bindAssignmentLikeContext` applied to the already
bound-and-propagated RHS: a bad RHS is returned as is; an RHS whose type is
not assignment compatible with the destination emits `NoImplicitConversion`
when cast compatible and `BadAssignment` otherwise, and is wrapped in an
invalid node; otherwise the RHS is widened toward the destination type. -/
def bindAssignmentLikeContextCore (tc : TypeCompat)
    (bound : Option (Expression × List Diagnostic))
    (assignmentType : TypeSymbol) : Option (Expression × List Diagnostic) :=
  match bound with
  | none => none
  | some (expr, diags) =>
    if expr.bad then some (expr, diags)
    else if !(tc.isAssignmentCompatible assignmentType expr.type) then
      let code : Diagnostic :=
        if tc.isCastCompatible assignmentType expr.type then
          .NoImplicitConversion
        else .BadAssignment
      some (badExpr (some expr), diags ++ [code])
    else
      let (expr2, did) := propagateAssignmentLike expr assignmentType
      some ((if did then expr2 else expr2.propagateType expr2.type), diags)

mutual

/-- `Binder::bindExpression`: the total dispatch over the syntax-kind enum.
Each operand is bound through `bindAndPropagate` (spelled
`andPropagate (bindExpression …)` so the recursion is structural) and the
per-kind `…Core` function finishes the job exactly as the corresponding
source function does. -/
def bindExpression (tc : TypeCompat) (sc : Scope) :
    ExpressionSyntax → Option (Expression × List Diagnostic)
  | .integerLiteral v => some (.integerLiteral getIntType v, [])
  | .realLiteral => some (.realLiteral getRealType, [])
  | .unbasedUnsizedLiteral u =>
      some (.unbasedUnsizedLiteral (getType 1 false u) u, [])
  | .integerVector missing w s u v =>
      if missing then
        some (badExpr (some (.integerLiteral getErrorType 0)), [])
      else some (.integerLiteral (getType w s u) v, [])
  | .identifierName id => bindSimpleName sc id
  | .parenthesized inner => bindExpression tc sc inner
  | .unaryExpr op operand =>
      match op with
      | .UnaryPlusExpression | .UnaryMinusExpression
      | .UnaryBitwiseNotExpression =>
        (andPropagate (bindExpression tc sc operand)).map fun p =>
          let (e, d) := bindUnaryArithmeticOperatorCore op p.1
          (e, p.2 ++ d)
      | .UnaryBitwiseAndExpression | .UnaryBitwiseOrExpression
      | .UnaryBitwiseXorExpression | .UnaryBitwiseNandExpression
      | .UnaryBitwiseNorExpression | .UnaryBitwiseXnorExpression
      | .UnaryLogicalNotExpression =>
        (andPropagate (bindExpression tc sc operand)).map fun p =>
          let (e, d) := bindUnaryReductionOperatorCore op p.1
          (e, p.2 ++ d)
      | _ => none
  | .binaryExpr op l r =>
      match andPropagate (bindExpression tc sc l) with
      | none => none
      | some (lhs, dl) =>
        match andPropagate (bindExpression tc sc r) with
        | none => none
        | some (rhs, dr) =>
          match op with
          | .AddExpression | .SubtractExpression | .MultiplyExpression
          | .DivideExpression | .ModExpression | .BinaryAndExpression
          | .BinaryOrExpression | .BinaryXorExpression
          | .BinaryXnorExpression =>
            let (e, d) := bindArithmeticOperatorCore op lhs rhs
            some (e, dl ++ dr ++ d)
          | .EqualityExpression | .InequalityExpression
          | .CaseEqualityExpression | .CaseInequalityExpression
          | .GreaterThanEqualExpression | .GreaterThanExpression
          | .LessThanEqualExpression | .LessThanExpression
          | .WildcardEqualityExpression | .WildcardInequalityExpression =>
            let (e, d) := bindComparisonOperatorCore op lhs rhs
            some (e, dl ++ dr ++ d)
          | .LogicalAndExpression | .LogicalOrExpression
          | .LogicalImplicationExpression | .LogicalEquivalenceExpression =>
            let (e, d) := bindRelationalOperatorCore op lhs rhs
            some (e, dl ++ dr ++ d)
          | .LogicalShiftLeftExpression | .LogicalShiftRightExpression
          | .ArithmeticShiftLeftExpression | .ArithmeticShiftRightExpression
          | .PowerExpression =>
            let (e, d) := bindShiftOrPowerOperatorCore op lhs rhs
            some (e, dl ++ dr ++ d)
          | .AssignmentExpression | .AddAssignmentExpression
          | .SubtractAssignmentExpression | .MultiplyAssignmentExpression
          | .DivideAssignmentExpression | .ModAssignmentExpression
          | .AndAssignmentExpression | .OrAssignmentExpression
          | .XorAssignmentExpression
          | .LogicalLeftShiftAssignmentExpression
          | .LogicalRightShiftAssignmentExpression
          | .ArithmeticLeftShiftAssignmentExpression
          | .ArithmeticRightShiftAssignmentExpression =>
            (bindAssignmentOperatorCore op lhs rhs).map fun p =>
              (p.1, dl ++ dr ++ p.2)
          | _ => none
  | .conditionalExpr predicate l r =>
      match andPropagate (bindExpression tc sc predicate) with
      | none => none
      | some (pred, dp) =>
        match andPropagate (bindExpression tc sc l) with
        | none => none
        | some (left, dl) =>
          match andPropagate (bindExpression tc sc r) with
          | none => none
          | some (right, dr) =>
            let (e, d) := bindConditionalExpressionCore pred left right
            some (e, dp ++ dl ++ dr ++ d)
  | .concatenationExpr exprs =>
      match bindConcatenationOperands tc sc exprs with
      | none => none
      | some (none, d) => some (badExpr (some (.naryOp getErrorType [])), d)
      | some (some (args, totalWidth), d) =>
          some (.naryOp (getType2 totalWidth false) args, d)
  | .multipleConcatenationExpr l r =>
      match andPropagate (bindExpression tc sc l) with
      | none => none
      | some (left, dl) =>
        match andPropagate (bindExpression tc sc r) with
        | none => none
        | some (right, dr) =>
          (bindMultipleConcatenationExpressionCore left right).map fun p =>
            (p.1, dl ++ dr ++ p.2)
  | .bitSelectExpr l index =>
      match andPropagate (bindExpression tc sc l) with
      | none => none
      | some (expr, d) =>
        if expr.bad then some (badExpr (some expr), d)
        else
          match expr.type.lowerBound0 with
          | none => none
          | some _lb =>
            match andPropagate (bindExpression tc sc index) with
            | none => none
            | some (left, d1) =>
              some (.selectOp
                (getType 1 expr.type.isSigned expr.type.isFourState)
                .BitSelect expr left left, d ++ d1)
  | .rangeSelectExpr k l sl sr =>
      match andPropagate (bindExpression tc sc l) with
      | none => none
      | some (expr, d) =>
        if expr.bad then some (badExpr (some expr), d)
        else
          match expr.type.lowerBound0 with
          | none => none
          | some lb =>
            let down : Bool := lb ≥ 0
            match k with
            | .SimpleRangeSelect =>
              match andPropagate (bindExpression tc sc sl) with
              | none => none
              | some (left, d1) =>
                match andPropagate (bindExpression tc sc sr) with
                | none => none
                | some (right, d2) =>
                  match left.eval.bind asInt64, right.eval.bind asInt64 with
                  | some lv, some rv =>
                    let width := (if down then 1 else -1) * toInt32 (lv - rv)
                    some (.selectOp
                      (getType width expr.type.isSigned expr.type.isFourState)
                      k expr left right, d ++ d1 ++ d2)
                  | _, _ => none
            | .AscendingRangeSelect | .DescendingRangeSelect =>
              match andPropagate (bindExpression tc sc sl) with
              | none => none
              | some (left, d1) =>
                match andPropagate (bindExpression tc sc sr) with
                | none => none
                | some (right, d2) =>
                  match right.eval.bind asInt64 with
                  | some rv =>
                    let width := toInt32 rv
                    some (.selectOp
                      (getType width expr.type.isSigned expr.type.isFourState)
                      k expr left right, d ++ d1 ++ d2)
                  | none => none
            | _ => none
  | .invocationExpr callee args =>
      match sc.lookup callee with
      | some (.subroutine formals returnType) =>
        if formals.length < args.length then
          some (badExpr none, [.TooManyArguments formals.length args.length])
        else
          match bindSubroutineArgs tc sc formals args with
          | none => none
          | some (boundArgs, d) => some (.callOp returnType boundArgs, d)
      | _ => none

/-- The loop of `Binder::bindConcatenationExpression`: bind each operand in
order, accumulating the total width; the first non-integral operand aborts
the loop (the remaining operands are never bound), signalled by an inner
`none`. -/
def bindConcatenationOperands (tc : TypeCompat) (sc : Scope) :
    List ExpressionSyntax →
    Option (Option (List Expression × Int) × List Diagnostic)
  | [] => some (some ([], 0), [])
  | a :: rest =>
    match andPropagate (bindExpression tc sc a) with
    | none => none
    | some (arg, d) =>
      if arg.type.kind == .IntegralType then
        match bindConcatenationOperands tc sc rest with
        | none => none
        | some (none, d2) => some (none, d ++ d2)
        | some (some (args, w), d2) =>
            some (some (arg :: args, arg.type.width + w), d ++ d2)
      else some (none, d)

/-- The argument loop of `Binder::bindSubroutineCall`: each actual is bound
in the assignment-like context of the corresponding formal's type.  The
formal list running out first is unreachable (the caller has already
checked the counts). -/
def bindSubroutineArgs (tc : TypeCompat) (sc : Scope) :
    List TypeSymbol → List ExpressionSyntax →
    Option (List Expression × List Diagnostic)
  | _, [] => some ([], [])
  | [], _ :: _ => none
  | f :: fs, a :: rest =>
    match bindAssignmentLikeContextCore tc
        (andPropagate (bindExpression tc sc a)) f with
    | none => none
    | some (e, d) =>
      match bindSubroutineArgs tc sc fs rest with
      | none => none
      | some (es, d2) => some (e :: es, d ++ d2)

end

/-- `Binder::bindAndPropagate`: the common kernel shared by all three
entry points. -/
def bindAndPropagate (tc : TypeCompat) (sc : Scope) (stx : ExpressionSyntax) :
    Option (Expression × List Diagnostic) :=
  andPropagate (bindExpression tc sc stx)

/-- `Binder::bindConstantExpression`. -/
def bindConstantExpression (tc : TypeCompat) (sc : Scope)
    (stx : ExpressionSyntax) : Option (Expression × List Diagnostic) :=
  bindAndPropagate tc sc stx

/-- `Binder::bindSelfDeterminedExpression`. -/
def bindSelfDeterminedExpression (tc : TypeCompat) (sc : Scope)
    (stx : ExpressionSyntax) : Option (Expression × List Diagnostic) :=
  bindAndPropagate tc sc stx

/-- `Binder::bindAssignmentLikeContext`. -/
def bindAssignmentLikeContext (tc : TypeCompat) (sc : Scope)
    (stx : ExpressionSyntax) (assignmentType : TypeSymbol) :
    Option (Expression × List Diagnostic) :=
  bindAssignmentLikeContextCore tc (bindAndPropagate tc sc stx) assignmentType


/-- A type-compatibility oracle that admits every implicit assignment;
used to exercise binder paths where compatibility is not at issue. -/
def tcTrivial : TypeCompat := ⟨fun _ _ => true, fun _ _ => true⟩

/-- The type of `v: logic[15:0]`: 16-bit unsigned four-state integral. -/
def logic16 : TypeSymbol := .integral 16 false true [0]

/-- The type of `a: logic[7:0]`. -/
def logic8 : TypeSymbol := .integral 8 false true [0]

/-- The type of `b: logic[3:0]`. -/
def logic4 : TypeSymbol := .integral 4 false true [0]

/-- An 8-bit unsigned two-state integral (`bit[7:0]`). -/
def bit8 : TypeSymbol := .integral 8 false false [0]

/-- Scope of scenario S6: `v: logic[15:0]`. -/
def scopeS6 : Scope := ⟨fun n => if n = "v" then some (.var logic16) else none⟩

/-- Scope of scenario S1: `a: logic[7:0]`, `b: logic[3:0]`. -/
def scopeS1 : Scope :=
  ⟨fun n =>
    if n = "a" then some (.var logic8)
    else if n = "b" then some (.var logic4)
    else none⟩

/-- Scope of scenario S2: `x: int`, `y: real`. -/
def scopeS2 : Scope :=
  ⟨fun n =>
    if n = "x" then some (.var getIntType)
    else if n = "y" then some (.var getRealType)
    else none⟩

/-- Scope with two-state variables `a`, `b` of type `bit[7:0]`. -/
def scopeBit : Scope :=
  ⟨fun n => if n = "a" ∨ n = "b" then some (.var bit8) else none⟩

/-- Scope of scenario S5: subroutine `f(int a, int b)` returning `int`. -/
def scopeF : Scope :=
  ⟨fun n =>
    if n = "f" then some (.subroutine [getIntType, getIntType] getIntType)
    else none⟩

/-- The empty scope. -/
def scopeEmpty : Scope := ⟨fun _ => none⟩

/-- C10: `bindConstantExpression` and `bindSelfDeterminedExpression` are
extensionally equal — both are exactly `bindAndPropagate`; nothing about
constant evaluability is checked by the former. -/
theorem bindConstant_eq_bindSelfDetermined (tc : TypeCompat) (sc : Scope)
    (stx : ExpressionSyntax) :
    bindConstantExpression tc sc stx = bindSelfDeterminedExpression tc sc stx :=
  rfl

/-- C1: binding `v[7:0]` on `v: logic[15:0]` does not follow the select
width law — the code computes the simple-range width as
`(down ? 1 : -1) * (msb - lsb)` with no `+ 1`, so the bound select node
has width 7, not the 8 required by |msb - lsb| + 1. -/
theorem bindSelect_s6_width_seven_not_eight :
    bindExpression tcTrivial scopeS6
        (.rangeSelectExpr .SimpleRangeSelect (.identifierName "v")
          (.integerLiteral 7) (.integerLiteral 0)) =
      some (.selectOp (getType 7 false true) .SimpleRangeSelect
        (.variableRef logic16) (.integerLiteral getIntType 7)
        (.integerLiteral getIntType 0), []) ∧
    (getType 7 false true).width ≠ 8 := by
  exact ⟨rfl, by decide⟩

/-- C5 counterexample: in scope `x: int`, `y: real`, binding `x + y`
yields a binary node of type `real` (width 64), not `shortreal`
(width 32) as claimed: max(32, 64) = 64 ≥ 64 selects the real type. -/
theorem int_plus_real_not_shortreal :
    bindExpression tcTrivial scopeS2
        (.binaryExpr .AddExpression (.identifierName "x")
          (.identifierName "y")) =
      some (.binaryOp getRealType (.variableRef getIntType)
        (.variableRef getRealType), []) ∧
    getRealType ≠ getShortRealType := by
  exact ⟨rfl, by decide⟩

/-- C5 amended: in scope `x: int`, `y: real`, binding `x + y` yields a
binary arithmetic node of type `real`, of width 64, with no
diagnostics. -/
theorem int_plus_real_yields_real :
    bindExpression tcTrivial scopeS2
        (.binaryExpr .AddExpression (.identifierName "x")
          (.identifierName "y")) =
      some (.binaryOp getRealType (.variableRef getIntType)
        (.variableRef getRealType), []) ∧
    getRealType.width = 64 := by
  exact ⟨rfl, by decide⟩

/-- C4 counterexample: modulo does not force four-state.  With two-state
`a`, `b` of type `bit[7:0]`, binding `a % b` yields a two-state result
type: `bindArithmeticOperator` passes
`syntax.kind == SyntaxKind::DivideExpression` as the force flag, which is
false for `ModExpression`. -/
theorem mod_result_two_state :
    bindExpression tcTrivial scopeBit
        (.binaryExpr .ModExpression (.identifierName "a")
          (.identifierName "b")) =
      some (.binaryOp (getType 8 false false) (.variableRef bit8)
        (.variableRef bit8), []) ∧
    (getType 8 false false).isFourState = false := by
  exact ⟨rfl, rfl⟩

/-- C9 counterexample: the replication count of `{n{x}}` is read through
`SVInt::as<uint16_t>().value()`, so a representable count that does not
fit in 16 bits is not bound to a node of width n * x.width — binding
`{65536{{4-bit vector}}}` crashes on the empty optional. -/
theorem replication_count_65536_crashes :
    bindExpression tcTrivial scopeEmpty
        (.multipleConcatenationExpr (.integerLiteral 65536)
          (.concatenationExpr [.integerVector false 4 false false 5])) =
      none := by
  rfl

/-- C8 counterexample: with `e` of type `shortreal` and the destination
type a 100-bit integral, the first `propagateAssignmentLike` sets `e`'s
type to `real` (width 64) and returns true; the second application is not
a no-op returning false — 100 > 64 still holds, so it runs again and
returns true. -/
theorem propagateAssignmentLike_second_not_noop :
    (propagateAssignmentLike
        (propagateAssignmentLike (.variableRef getShortRealType)
          (.integral 100 false false [0])).1
        (.integral 100 false false [0])).2 = true := by
  rfl



/-- The syntax kinds dispatched to `Binder::bindArithmeticOperator`. -/
def arithmeticOperatorKinds : List SyntaxKind :=
  [.AddExpression, .SubtractExpression, .MultiplyExpression,
   .DivideExpression, .ModExpression, .BinaryAndExpression,
   .BinaryOrExpression, .BinaryXorExpression, .BinaryXnorExpression]

/-- C3: for integral operands, a binary arithmetic expression binds to a
node whose type has width max(width(a), width(b)), is signed iff both
operands are signed, and is four-state iff either operand is four-state or
the operator forces it (the force flag being `op == DivideExpression`);
no diagnostic is added. -/
theorem binary_arithmetic_result_type_law
    (tc : TypeCompat) (sc : Scope) (op : SyntaxKind)
    (l r : ExpressionSyntax) (lhs rhs : Expression)
    (dl dr : List Diagnostic) (wl wr : Int) (sl sr fl fr : Bool)
    (bl br : List Int)
    (hop : op ∈ arithmeticOperatorKinds)
    (hl : bindAndPropagate tc sc l = some (lhs, dl))
    (hr : bindAndPropagate tc sc r = some (rhs, dr))
    (htl : lhs.type = .integral wl sl fl bl)
    (htr : rhs.type = .integral wr sr fr br) :
    bindExpression tc sc (.binaryExpr op l r) =
      some (.binaryOp
        (getType (max wl wr) (sl && sr) ((op == .DivideExpression) || fl || fr))
        lhs rhs, dl ++ dr) := by
  rw [bindAndPropagate] at hl hr
  fin_cases hop <;>
    simp [bindExpression, hl, hr, bindArithmeticOperatorCore,
      checkOperatorApplicabilityBinary, Expression.bad, htl, htr,
      binaryOperatorResultType, TypeSymbol.kind, TypeSymbol.width,
      TypeSymbol.isSigned, TypeSymbol.isFourState, TypeSymbol.isReal]

/-- Witness for C3 at scenario S1: `a: logic[7:0]`, `b: logic[3:0]`;
`a + b` binds to a binary node of type integral(width 8, unsigned,
four-state) with no diagnostics. -/
theorem binary_arithmetic_result_type_law_witness :
    bindExpression tcTrivial scopeS1
        (.binaryExpr .AddExpression (.identifierName "a")
          (.identifierName "b")) =
      some (.binaryOp (getType 8 false true) (.variableRef logic8)
        (.variableRef logic4), []) := by
  have h := binary_arithmetic_result_type_law tcTrivial scopeS1
    .AddExpression (.identifierName "a") (.identifierName "b")
    (.variableRef logic8) (.variableRef logic4) [] [] 8 4 false false
    true true [0] [0] (by decide) rfl rfl rfl rfl
  simpa using h


/-- Both applicability branches of the binary
`checkOperatorApplicability` admit integral operands, so with two integral
operand types the check succeeds for every operator with no diagnostic. -/
theorem checkBinary_integral_ok
    (op : SyntaxKind) (lhs rhs : Expression)
    (wl wr : Int) (sl sr fl fr : Bool) (bl br : List Int)
    (htl : lhs.type = .integral wl sl fl bl)
    (htr : rhs.type = .integral wr sr fr br) :
    checkOperatorApplicabilityBinary op lhs rhs = (true, []) := by
  cases op <;>
    simp [checkOperatorApplicabilityBinary, Expression.bad, htl, htr,
      TypeSymbol.kind]

/-- `binaryOperatorResultType` on integral operand types takes the
non-real branch. -/
theorem binaryOperatorResultType_integral
    (wl wr : Int) (sl sr fl fr : Bool) (bl br : List Int) (f : Bool) :
    binaryOperatorResultType (.integral wl sl fl bl) (.integral wr sr fr br)
        f =
      getType (max wl wr) (sl && sr) (f || fl || fr) := by
  simp [binaryOperatorResultType, TypeSymbol.isReal, TypeSymbol.width,
    TypeSymbol.isSigned, TypeSymbol.isFourState]

/-- C4 amended: the force flag passed to `binaryOperatorResultType` is
true exactly for division (within the arithmetic group), power (within the
shift/power group) and the ternary operator; in particular modulo does not
force four-state.  With two-state integral operands the result type's
four-state bit equals the flag, which this theorem reads back. -/
theorem force_four_state_divide_power_ternary
    (op : SyntaxKind) (lhs rhs pred : Expression)
    (wl wr : Int) (sl sr : Bool) (bl br : List Int)
    (htl : lhs.type = .integral wl sl false bl)
    (htr : rhs.type = .integral wr sr false br) :
    (bindArithmeticOperatorCore op lhs rhs).1.type.isFourState
        = (op == .DivideExpression) ∧
    (bindShiftOrPowerOperatorCore op lhs rhs).1.type.isFourState
        = (op == .PowerExpression) ∧
    (bindConditionalExpressionCore pred lhs rhs).1.type.isFourState
        = true := by
  have hck := checkBinary_integral_ok op lhs rhs wl wr sl sr false false
    bl br htl htr
  refine ⟨?_, ?_, ?_⟩ <;>
    simp [bindArithmeticOperatorCore, bindShiftOrPowerOperatorCore,
      bindConditionalExpressionCore, hck, htl, htr,
      binaryOperatorResultType_integral, getType,
      TypeSymbol.isFourState] <;>
    simp [Expression.type, TypeSymbol.isFourState]

/-- Witness for C4 amended: with two-state `bit[7:0]` operands,
`%` yields a two-state result, `**` a four-state one, and the ternary a
four-state one. -/
theorem force_four_state_divide_power_ternary_witness :
    (bindArithmeticOperatorCore .ModExpression (.variableRef bit8)
        (.variableRef bit8)).1.type.isFourState = false ∧
    (bindShiftOrPowerOperatorCore .PowerExpression (.variableRef bit8)
        (.variableRef bit8)).1.type.isFourState = true ∧
    (bindConditionalExpressionCore (.variableRef bit8) (.variableRef bit8)
        (.variableRef bit8)).1.type.isFourState = true := by
  have h := force_four_state_divide_power_ternary .ModExpression
    (.variableRef bit8) (.variableRef bit8) (.variableRef bit8)
    8 8 false false [0] [0] rfl rfl
  have h2 := force_four_state_divide_power_ternary .PowerExpression
    (.variableRef bit8) (.variableRef bit8) (.variableRef bit8)
    8 8 false false [0] [0] rfl rfl
  exact ⟨h.1, h2.2.1, h.2.2⟩

/-- C6: in the assignment-like context, a non-bad RHS whose type is not
assignment compatible with the destination type is wrapped in an invalid
node and exactly one diagnostic is added: `NoImplicitConversion` when the
types are cast compatible, `BadAssignment` otherwise. -/
theorem assignment_like_incompatible_diagnostic
    (tc : TypeCompat) (sc : Scope) (stx : ExpressionSyntax)
    (dstType : TypeSymbol) (e : Expression) (d : List Diagnostic)
    (hb : bindAndPropagate tc sc stx = some (e, d))
    (hbad : e.bad = false)
    (hcompat : tc.isAssignmentCompatible dstType e.type = false) :
    bindAssignmentLikeContext tc sc stx dstType =
      some (badExpr (some e),
        d ++ [if tc.isCastCompatible dstType e.type then
          Diagnostic.NoImplicitConversion else Diagnostic.BadAssignment]) := by
  simp [bindAssignmentLikeContext, bindAssignmentLikeContextCore, hb, hbad,
    hcompat]

/-- A compatibility oracle that rejects every implicit assignment but
allows every cast. -/
def tcCastOnly : TypeCompat := ⟨fun _ _ => false, fun _ _ => true⟩

/-- Witness for C6: binding the literal `5` into a `logic[15:0]`
destination under an oracle that rejects implicit conversion but allows
the cast yields an invalid node wrapping the literal and exactly the
diagnostic `NoImplicitConversion`. -/
theorem assignment_like_incompatible_diagnostic_witness :
    bindAssignmentLikeContext tcCastOnly scopeEmpty (.integerLiteral 5)
        logic16 =
      some (badExpr (some (.integerLiteral getIntType 5)),
        [Diagnostic.NoImplicitConversion]) := by
  have h := assignment_like_incompatible_diagnostic tcCastOnly scopeEmpty
    (.integerLiteral 5) logic16 (.integerLiteral getIntType 5) [] rfl rfl rfl
  simpa using h

/-- C7: a subroutine call with more actual arguments than the callee has
formals binds to an invalid node with exactly one diagnostic,
`TooManyArguments`, carrying the formal count (expected) and the actual
count; the actuals are never bound. -/
theorem too_many_arguments_invalid
    (tc : TypeCompat) (sc : Scope) (callee : String)
    (formals : List TypeSymbol) (returnType : TypeSymbol)
    (args : List ExpressionSyntax)
    (hlook : sc.lookup callee = some (.subroutine formals returnType))
    (hcount : formals.length < args.length) :
    bindExpression tc sc (.invocationExpr callee args) =
      some (badExpr none,
        [Diagnostic.TooManyArguments formals.length args.length]) := by
  simp [bindExpression, hlook, hcount]

/-- Witness for C7 at scenario S5: `f(int a, int b)`; binding `f(1, 2, 3)`
yields an invalid node with the single diagnostic
`TooManyArguments(expected = 2, actual = 3)`. -/
theorem too_many_arguments_invalid_witness :
    bindExpression tcTrivial scopeF
        (.invocationExpr "f"
          [.integerLiteral 1, .integerLiteral 2, .integerLiteral 3]) =
      some (badExpr none, [Diagnostic.TooManyArguments 2 3]) := by
  have h := too_many_arguments_invalid tcTrivial scopeF "f"
    [getIntType, getIntType] getIntType
    [.integerLiteral 1, .integerLiteral 2, .integerLiteral 3] rfl
    (by decide)
  simpa using h

/-- C9 amended: for a replication `{n{x}}` whose count evaluates to a
constant n with 0 ≤ n < 2^16, the bound node's type is the unsigned
integral of width n * width(x); counts outside the unsigned 16-bit range
make binding fail instead (see the counterexample). -/
theorem replication_width_uint16
    (tc : TypeCompat) (sc : Scope) (l r : ExpressionSyntax)
    (el er : Expression) (dl dr : List Diagnostic) (v : Int)
    (hl : bindAndPropagate tc sc l = some (el, dl))
    (hr : bindAndPropagate tc sc r = some (er, dr))
    (hev : el.eval = some v) (h0 : 0 ≤ v) (h16 : v < 65536) :
    bindExpression tc sc (.multipleConcatenationExpr l r) =
      some (.binaryOp (getType2 (er.type.width * v) false) el er,
        dl ++ dr) := by
  rw [bindAndPropagate] at hl hr
  simp [bindExpression, hl, hr, bindMultipleConcatenationExpressionCore,
    hev, asUInt16, h0, h16]

/-- Witness for C9 amended: `{3{4-bit vector}}` binds to an unsigned
integral of width 12. -/
theorem replication_width_uint16_witness :
    bindExpression tcTrivial scopeEmpty
        (.multipleConcatenationExpr (.integerLiteral 3)
          (.concatenationExpr [.integerVector false 4 false false 5])) =
      some (.binaryOp (getType2 12 false) (.integerLiteral getIntType 3)
        (.naryOp (getType2 4 false) [.integerLiteral (getType 4 false false) 5]),
        []) := by
  have h := replication_width_uint16 tcTrivial scopeEmpty
    (.integerLiteral 3)
    (.concatenationExpr [.integerVector false 4 false false 5])
    (.integerLiteral getIntType 3)
    (.naryOp (getType2 4 false) [.integerLiteral (getType 4 false false) 5])
    [] [] 3 rfl rfl rfl (by decide) (by decide)
  simpa using h



/-- Setting the type field yields a node of that type. -/
theorem type_setType (e : Expression) (t : TypeSymbol) :
    (e.setType t).type = t := by
  cases e <;> rfl

/-- Setting the type field twice keeps only the second assignment. -/
theorem setType_setType (e : Expression) (a b : TypeSymbol) :
    (e.setType a).setType b = e.setType b := by
  cases e <;> rfl

/-- Setting the type field to the node's own type changes nothing. -/
theorem setType_type (e : Expression) : e.setType e.type = e := by
  cases e <;> rfl

/-- The expression state left by `propagateAssignmentLike`, in closed
form: the widened node is the original with its type field replaced. -/
theorem propagateAssignmentLike_fst (x : Expression) (T : TypeSymbol) :
    (propagateAssignmentLike x T).1 =
      if T.width > x.type.width then
        x.setType (if !T.isReal && !x.type.isReal then
            getType T.width x.type.isSigned x.type.isFourState
          else if T.width > 32 then getRealType else getShortRealType)
      else x := by
  simp only [propagateAssignmentLike, Expression.propagateType]
  split_ifs <;> simp_all [setType_setType, type_setType]

/-- C8 amended: `propagateAssignmentLike` is idempotent on the expression
state — applying it twice leaves the expression exactly as one
application does.  (Its return value, however, is not always false the
second time: see the counterexample with a destination of integral width
100 and a real RHS.) -/
theorem propagateAssignmentLike_state_idempotent
    (e : Expression) (T : TypeSymbol) :
    (propagateAssignmentLike (propagateAssignmentLike e T).1 T).1 =
      (propagateAssignmentLike e T).1 := by
  rw [propagateAssignmentLike_fst e T]
  by_cases h1 : T.width > e.type.width
  case neg => rw [if_neg h1, propagateAssignmentLike_fst e T, if_neg h1]
  case pos =>
    rw [if_pos h1, propagateAssignmentLike_fst _ T, type_setType]
    rcases T with ⟨wT, sT, fT, bT⟩ | _ | _ | _ <;>
      rcases ht : e.type with ⟨wt, st, ft, bt⟩ | _ | _ | _ <;>
        simp_all [TypeSymbol.width, TypeSymbol.isReal, TypeSymbol.isSigned,
          TypeSymbol.isFourState, getType, getRealType, getShortRealType,
          setType_setType] <;>
        split_ifs <;>
        simp_all [setType_setType]




/-- Whether a bound node is the `InvalidExpression` kind. -/
def Expression.isInvalidNode : Expression → Bool
  | .invalid _ _ => true
  | _ => false

/-- C2 counterexample: quarantine is not uniform.  Binding the ternary
`1 ? z : 2` (with `z` undeclared, so its middle child is Invalid) yields a
ternary node, not an Invalid node — `bindConditionalExpression` never
checks its children for badness; and binding `v[z]` (a bit select whose
index child is Invalid) yields a select node, not an Invalid node.  In
both cases no diagnostic beyond the child's is emitted. -/
theorem ternary_and_select_child_not_quarantined :
    (bindExpression tcTrivial scopeEmpty
        (.conditionalExpr (.integerLiteral 1) (.identifierName "z")
          (.integerLiteral 2)) =
      some (.ternaryOp (getType 32 false true)
        (.integerLiteral getIntType 1) (badExpr none)
        (.integerLiteral getIntType 2),
        [.UndeclaredIdentifier "z"]) ∧
      (Expression.ternaryOp (getType 32 false true)
        (.integerLiteral getIntType 1) (badExpr none)
        (.integerLiteral getIntType 2)).isInvalidNode = false) ∧
    (bindExpression tcTrivial scopeS6
        (.bitSelectExpr (.identifierName "v") (.identifierName "z")) =
      some (.selectOp (getType 1 false true) .BitSelect
        (.variableRef logic16) (badExpr none) (badExpr none),
        [.UndeclaredIdentifier "z"]) ∧
      (Expression.selectOp (getType 1 false true) .BitSelect
        (.variableRef logic16) (badExpr none)
        (badExpr none)).isInvalidNode = false) := by
  exact ⟨⟨rfl, rfl⟩, ⟨rfl, rfl⟩⟩

/-- The syntax kinds dispatched to the two unary operator binders. -/
def unaryOperatorKinds : List SyntaxKind :=
  [.UnaryPlusExpression, .UnaryMinusExpression, .UnaryBitwiseNotExpression,
   .UnaryBitwiseAndExpression, .UnaryBitwiseOrExpression,
   .UnaryBitwiseXorExpression, .UnaryBitwiseNandExpression,
   .UnaryBitwiseNorExpression, .UnaryBitwiseXnorExpression,
   .UnaryLogicalNotExpression]

/-- The syntax kinds dispatched to the binary operator binders
(arithmetic, comparison, relational, shift/power, assignment). -/
def binaryOperatorKinds : List SyntaxKind :=
  arithmeticOperatorKinds ++
  [.EqualityExpression, .InequalityExpression, .CaseEqualityExpression,
   .CaseInequalityExpression, .GreaterThanEqualExpression,
   .GreaterThanExpression, .LessThanEqualExpression, .LessThanExpression,
   .WildcardEqualityExpression, .WildcardInequalityExpression,
   .LogicalAndExpression, .LogicalOrExpression,
   .LogicalImplicationExpression, .LogicalEquivalenceExpression,
   .LogicalShiftLeftExpression, .LogicalShiftRightExpression,
   .ArithmeticShiftLeftExpression, .ArithmeticShiftRightExpression,
   .PowerExpression,
   .AssignmentExpression, .AddAssignmentExpression,
   .SubtractAssignmentExpression, .MultiplyAssignmentExpression,
   .DivideAssignmentExpression, .ModAssignmentExpression,
   .AndAssignmentExpression, .OrAssignmentExpression,
   .XorAssignmentExpression, .LogicalLeftShiftAssignmentExpression,
   .LogicalRightShiftAssignmentExpression,
   .ArithmeticLeftShiftAssignmentExpression,
   .ArithmeticRightShiftAssignmentExpression]

/-- A node whose type has integral kind is not bad. -/
theorem bad_eq_false_of_kind_integral (e : Expression)
    (h : e.type.kind = .IntegralType) : e.bad = false := by
  cases he : e.type <;> simp_all [TypeSymbol.kind, Expression.bad, he]

/-- A successful run of the concatenation loop binds only operands of
integral (hence non-error) type. -/
theorem bindConcatenationOperands_no_bad (tc : TypeCompat) (sc : Scope) :
    ∀ (exprs : List ExpressionSyntax) (args : List Expression) (w : Int)
      (d : List Diagnostic),
      bindConcatenationOperands tc sc exprs = some (some (args, w), d) →
      ∀ a ∈ args, a.bad = false := by
  intro exprs
  induction exprs with
  | nil =>
    intro args w d h
    simp [bindConcatenationOperands] at h
    obtain ⟨⟨rfl, rfl⟩, rfl⟩ := h
    intro a ha
    simp at ha
  | cons x rest ih =>
    intro args w d h
    simp only [bindConcatenationOperands] at h
    cases hx : andPropagate (bindExpression tc sc x) with
    | none => rw [hx] at h; simp at h
    | some p =>
      rw [hx] at h
      by_cases hk : (p.1.type.kind == SymbolTypeKind.IntegralType) = true
      · simp only [hk, if_true] at h
        cases hrest : bindConcatenationOperands tc sc rest with
        | none => rw [hrest] at h; simp at h
        | some q =>
          rw [hrest] at h
          obtain ⟨st, d2⟩ := q
          cases st with
          | none => simp at h
          | some pr =>
            obtain ⟨args2, w2⟩ := pr
            simp at h
            obtain ⟨⟨rfl, -⟩, -⟩ := h
            intro a ha
            rcases List.mem_cons.mp ha with rfl | hmem
            · exact bad_eq_false_of_kind_integral _ (by simpa using hk)
            · exact ih args2 w2 d2 hrest a hmem
      · simp only [hk, if_false] at h
        simp at h



/-- C2 amended: the Invalid-child quarantine holds for unary, binary
(arithmetic, comparison, relational, shift/power, assignment) and
concatenation expressions, and for a select whose base is Invalid: the
parent binds to an Invalid node and no diagnostic beyond the children's is
emitted (for a concatenation this is stated contrapositively: a
concatenation that binds to a non-Invalid n-ary node has no bad operand).
The ternary operator and the selector operands of a select are NOT
quarantined (see the counterexample). -/
theorem invalid_child_quarantine_nonternary (tc : TypeCompat) (sc : Scope) :
    (∀ op stx e d, op ∈ unaryOperatorKinds →
        bindAndPropagate tc sc stx = some (e, d) → e.bad = true →
        bindExpression tc sc (.unaryExpr op stx) =
          some (badExpr (some (.unaryOp getErrorType e)), d)) ∧
    (∀ op l r el er dl dr, op ∈ binaryOperatorKinds →
        bindAndPropagate tc sc l = some (el, dl) →
        bindAndPropagate tc sc r = some (er, dr) →
        (el.bad || er.bad) = true →
        bindExpression tc sc (.binaryExpr op l r) =
          some (badExpr (some (.binaryOp getErrorType el er)), dl ++ dr)) ∧
    (∀ exprs t args d,
        bindExpression tc sc (.concatenationExpr exprs) =
          some (.naryOp t args, d) →
        ∀ a ∈ args, a.bad = false) ∧
    (∀ l index e d, bindAndPropagate tc sc l = some (e, d) → e.bad = true →
        bindExpression tc sc (.bitSelectExpr l index) =
          some (badExpr (some e), d)) ∧
    (∀ k l sl sr e d, bindAndPropagate tc sc l = some (e, d) →
        e.bad = true →
        bindExpression tc sc (.rangeSelectExpr k l sl sr) =
          some (badExpr (some e), d)) := by
  refine ⟨?_, ?_, ?_, ?_, ?_⟩
  · intro op stx e d hop hb hbad
    rw [bindAndPropagate] at hb
    fin_cases hop <;>
      simp [bindExpression, hb, bindUnaryArithmeticOperatorCore,
        bindUnaryReductionOperatorCore, checkOperatorApplicabilityUnary,
        hbad]
  · intro op l r el er dl dr hop hl hr hbad
    rw [bindAndPropagate] at hl hr
    fin_cases hop <;>
      simp [bindExpression, hl, hr, bindArithmeticOperatorCore,
        bindComparisonOperatorCore, bindRelationalOperatorCore,
        bindShiftOrPowerOperatorCore, bindAssignmentOperatorCore,
        binopKindForAssignment, checkOperatorApplicabilityBinary, hbad]
  · intro exprs t args d h
    simp only [bindExpression] at h
    cases hc : bindConcatenationOperands tc sc exprs with
    | none => rw [hc] at h; simp at h
    | some q =>
      rw [hc] at h
      obtain ⟨st, d0⟩ := q
      cases st with
      | none => simp [badExpr] at h
      | some pr =>
        obtain ⟨args0, w0⟩ := pr
        simp at h
        obtain ⟨⟨-, rfl⟩, -⟩ := h
        exact bindConcatenationOperands_no_bad tc sc exprs args0 w0 d0 hc
  · intro l index e d hb hbad
    rw [bindAndPropagate] at hb
    simp [bindExpression, hb, hbad]
  · intro k l sl sr e d hb hbad
    rw [bindAndPropagate] at hb
    simp [bindExpression, hb, hbad]

/-- Witness for C2 amended, one concrete instance per conjunct: a unary
minus, a binary add, and both select forms over the Invalid expression
`z` (undeclared), and a singleton concatenation giving a non-bad
operand. -/
theorem invalid_child_quarantine_nonternary_witness :
    bindExpression tcTrivial scopeEmpty
        (.unaryExpr .UnaryMinusExpression (.identifierName "z")) =
      some (badExpr (some (.unaryOp getErrorType (badExpr none))),
        [.UndeclaredIdentifier "z"]) ∧
    bindExpression tcTrivial scopeEmpty
        (.binaryExpr .AddExpression (.identifierName "z")
          (.integerLiteral 1)) =
      some (badExpr (some (.binaryOp getErrorType (badExpr none)
        (.integerLiteral getIntType 1))), [.UndeclaredIdentifier "z"]) ∧
    (Expression.integerLiteral (getType 4 false false) 5).bad = false ∧
    bindExpression tcTrivial scopeEmpty
        (.bitSelectExpr (.identifierName "z") (.integerLiteral 0)) =
      some (badExpr (some (badExpr none)), [.UndeclaredIdentifier "z"]) ∧
    bindExpression tcTrivial scopeEmpty
        (.rangeSelectExpr .SimpleRangeSelect (.identifierName "z")
          (.integerLiteral 7) (.integerLiteral 0)) =
      some (badExpr (some (badExpr none)), [.UndeclaredIdentifier "z"]) := by
  have H := invalid_child_quarantine_nonternary tcTrivial scopeEmpty
  refine ⟨?_, ?_, ?_, ?_, ?_⟩
  · have h := H.1 .UnaryMinusExpression (.identifierName "z")
      (badExpr none) [.UndeclaredIdentifier "z"] (by decide) rfl rfl
    simpa using h
  · have h := H.2.1 .AddExpression (.identifierName "z") (.integerLiteral 1)
      (badExpr none) (.integerLiteral getIntType 1)
      [.UndeclaredIdentifier "z"] [] (by decide) rfl rfl rfl
    simpa using h
  · exact H.2.2.1 [.integerVector false 4 false false 5] (getType2 4 false)
      [.integerLiteral (getType 4 false false) 5] [] rfl
      (.integerLiteral (getType 4 false false) 5) (by simp)
  · have h := H.2.2.2.1 (.identifierName "z") (.integerLiteral 0)
      (badExpr none) [.UndeclaredIdentifier "z"] rfl rfl
    simpa using h
  · have h := H.2.2.2.2 .SimpleRangeSelect (.identifierName "z")
      (.integerLiteral 7) (.integerLiteral 0) (badExpr none)
      [.UndeclaredIdentifier "z"] rfl rfl
    simpa using h


end Slang
